import Mathlib

/-!
Shallow embedding of the route-assembly engine of `stac_fastapi.api.app`
(`StacApi` and its registration methods), together with the extension kinds
re-exported by `stac_fastapi.extensions.core`.  Pure data (routes, request
models, settings, extension instances) is represented by Lean structures;
the mutation performed by `__attrs_post_init__` is represented by explicit
state passing.  Parts of the repository that are referenced by `app.py` but
whose sources are not available (`stac_fastapi.api.models.create_request_model`,
`stac_fastapi.api.routes.add_route_dependencies`, the concrete request-model
classes) are modelled from the specification and marked as such.
-/

namespace StacFastApi

/-- Extension kinds re-exported by `stac_fastapi.extensions.core`.  Python
class identity (`isinstance`) is modelled by a tag carried on every
extension instance. -/
inductive ExtKind where
  | fields
  | collectionSearch
  | tokenPagination
  | pagination
  | query
  | sort
  | filter
  | transaction
  | context
  | discoverySearch
  deriving DecidableEq, Repr

/-- Declared response models used by the registration methods of `StacApi`
(`LandingPage`, `ConformanceClasses`, `Item`, `ItemCollection`, `Collections`,
`Catalogs`, `Collection`, `Catalog` from `stac_pydantic`). -/
inductive ResponseModel where
  | landingPage
  | conformanceClasses
  | item
  | itemCollection
  | collections
  | catalogs
  | collection
  | catalog
  deriving DecidableEq, Repr

/-- A request model: a named schema with an ordered list of
(field name, field type) pairs. -/
structure RequestModel where
  name : String
  fields : List (String × String)
  deriving DecidableEq, Repr

/-- The endpoint installed on a route: either a wrapped client method
(`create_async_endpoint(self.client.<method>, ...)`) identified by the
method name, or a fixed-response handler (the health-check `ping`). -/
inductive Handler where
  | clientMethod (methodName : String)
  | fixedResponse (body : List (String × String))
  deriving DecidableEq, Repr

/-- One entry of the route table: the arguments of
`router.add_api_route` that the claims are about, plus the dependency
chain that route-dependency overlays extend. -/
structure RouteSpec where
  name : String
  path : String
  method : String
  response_model : Option ResponseModel
  request_model : RequestModel
  endpoint : Handler
  dependencies : List String := []
  deriving DecidableEq, Repr

/-- An extension instance: its class tag plus the data `app.py` reads off
it (`default_includes` for the fields extension, the `GET` mixin for the
pagination extension) and the routes its `register` hook adds. -/
structure Extension where
  kind : ExtKind
  conformance_uris : List String := []
  default_includes : List String := []
  GET : List (String × String) := []
  registers : List RouteSpec := []
  deriving DecidableEq, Repr

/-- The settings fields of `ApiSettings` that `app.py` reads or writes:
`enable_response_models` and `default_includes`. -/
structure ApiSettings where
  enable_response_models : Bool := false
  default_includes : Option (List String) := none
  deriving DecidableEq, Repr

/-- The client attributes that `__attrs_post_init__` injects. -/
structure Client where
  extensions : List Extension := []
  stac_version : String := ""
  title : String := ""
  description : String := ""
  deriving DecidableEq, Repr

/-- A route-dependency scope: a dict with a `path` and a `method` key. -/
structure Scope where
  path : String
  method : String
  deriving DecidableEq, Repr

/-- Modelled from the spec: the concrete request-model classes live in
`stac_fastapi.api.models` and `stac_fastapi.types.search`, outside the
provided sources; only the fields implied by the route path templates are
represented, which is all the claims depend on. -/
def EmptyRequest : RequestModel := { name := "EmptyRequest", fields := [] }

/-- Modelled from the spec: see `EmptyRequest`. -/
def ItemUri : RequestModel :=
  { name := "ItemUri"
    fields := [("catalog_id", "str"), ("collection_id", "str"), ("item_id", "str")] }

/-- Modelled from the spec: see `EmptyRequest`. -/
def CatalogUri : RequestModel := { name := "CatalogUri", fields := [("catalog_id", "str")] }

/-- Modelled from the spec: see `EmptyRequest`. -/
def CollectionUri : RequestModel :=
  { name := "CollectionUri", fields := [("catalog_id", "str"), ("collection_id", "str")] }

/-- Modelled from the spec: see `EmptyRequest`. -/
def ItemCollectionUri : RequestModel :=
  { name := "ItemCollectionUri"
    fields := [("catalog_id", "str"), ("collection_id", "str"), ("limit", "int")] }

/-- Modelled from the spec: see `EmptyRequest`. -/
def BaseSearchGetRequest : RequestModel := { name := "BaseSearchGetRequest", fields := [] }

/-- Modelled from the spec: see `EmptyRequest`. -/
def BaseSearchPostRequest : RequestModel := { name := "BaseSearchPostRequest", fields := [] }

/-- Modelled from the spec: see `EmptyRequest`. -/
def BaseCatalogSearchGetRequest : RequestModel :=
  { name := "BaseCatalogSearchGetRequest", fields := [] }

/-- Modelled from the spec: see `EmptyRequest`. -/
def CatalogSearchPostRequest : RequestModel :=
  { name := "CatalogSearchPostRequest", fields := [("catalog_id", "str")] }

/-- The attributes of `StacApi` that the claims depend on (`attr.s`
fields of `app.py`, with the same defaults where they are known). -/
structure StacApi where
  settings : ApiSettings
  extensions : List Extension := []
  stac_version : String := "1.0.0"
  title : String := "stac-fastapi"
  description : String := "stac-fastapi"
  search_get_request_model : RequestModel := BaseSearchGetRequest
  search_post_request_model : RequestModel := BaseSearchPostRequest
  search_catalog_get_request_model : RequestModel := BaseCatalogSearchGetRequest
  search_catalog_post_request_model : RequestModel := CatalogSearchPostRequest
  pagination_extension : ExtKind := ExtKind.tokenPagination
  route_dependencies : List (List Scope × List String) := []
  collections_get_request_model : RequestModel := EmptyRequest
  deriving DecidableEq, Repr

/-- Python `isinstance(ext, T)`, modelled as a tag check. -/
def instOf (t : ExtKind) (e : Extension) : Bool := e.kind == t

/-- `StacApi.get_extension`: the first element of `extensions` that is an
instance of the requested type, `None` if there is none (the `for` loop of
`app.py`, lines 141-153). -/
def get_extension (exts : List Extension) (t : ExtKind) : Option Extension :=
  match exts with
  | [] => none
  | e :: rest => if instOf t e then some e else get_extension rest t

/-- Modelled from the spec: one step of the Request Model Synthesizer of
`stac_fastapi.api.models.create_request_model` (spec section 4.1): a field
absent from the accumulated set is appended, an identical-type duplicate is
skipped, a conflicting-type duplicate is a `SchemaConflictError`. -/
def addField (acc : List (String × String)) (f : String × String) :
    Except String (List (String × String)) :=
  match acc.find? (fun g => g.1 == f.1) with
  | none => Except.ok (acc ++ [f])
  | some g =>
    if g.2 == f.2 then Except.ok acc
    else Except.error ("SchemaConflictError: " ++ f.1)

/-- Modelled from the spec: fold `addField` over one mixin's fields. -/
def mergeFields : List (String × String) → List (String × String) →
    Except String (List (String × String))
  | acc, [] => Except.ok acc
  | acc, f :: fs =>
    match addField acc f with
    | Except.ok acc2 => mergeFields acc2 fs
    | Except.error e => Except.error e

/-- Modelled from the spec: fold `mergeFields` over the mixins in
declaration order. -/
def synthesizeFields : List (String × String) → List (List (String × String)) →
    Except String (List (String × String))
  | acc, [] => Except.ok acc
  | acc, m :: ms =>
    match mergeFields acc m with
    | Except.ok acc2 => synthesizeFields acc2 ms
    | Except.error e => Except.error e

/-- Modelled from the spec: `stac_fastapi.api.models.create_request_model`
(spec section 4.1).  With no mixins the synthesized model is the base
model's field set under the given name. -/
def create_request_model (name : String) (base : RequestModel)
    (mixins : Option (List (List (String × String)))) : Except String RequestModel :=
  match mixins with
  | none => Except.ok { name := name, fields := base.fields }
  | some ms => (synthesizeFields base.fields ms).map fun fs => { name := name, fields := fs }

/-- FastAPI's `APIRouter.add_api_route`: appends the route to the route
table; there is no duplicate check and no failure case. -/
def add_api_route (routes : List RouteSpec) (r : RouteSpec) : List RouteSpec :=
  routes ++ [r]

/-- `register_landing_page` (app.py lines 155-172). -/
def register_landing_page (api : StacApi) : RouteSpec :=
  { name := "Landing Page"
    path := "/"
    method := "GET"
    response_model :=
      if api.settings.enable_response_models then some ResponseModel.landingPage else none
    request_model := EmptyRequest
    endpoint := Handler.clientMethod "landing_page" }

/-- `register_conformance_classes` (app.py lines 174-191). -/
def register_conformance_classes (api : StacApi) : RouteSpec :=
  { name := "Conformance Classes"
    path := "/conformance"
    method := "GET"
    response_model :=
      if api.settings.enable_response_models then some ResponseModel.conformanceClasses
      else none
    request_model := EmptyRequest
    endpoint := Handler.clientMethod "conformance" }

/-- `register_get_item` (app.py lines 193-208). -/
def register_get_item (api : StacApi) : RouteSpec :=
  { name := "Get Item"
    path := "/catalogs/{catalog_id}/collections/{collection_id}/items/{item_id}"
    method := "GET"
    response_model :=
      if api.settings.enable_response_models then some ResponseModel.item else none
    request_model := ItemUri
    endpoint := Handler.clientMethod "get_item" }

/-- `register_post_global_search` (app.py lines 210-232). -/
def register_post_global_search (api : StacApi) : RouteSpec :=
  let fields_ext := get_extension api.extensions ExtKind.fields
  { name := "Search"
    path := "/search"
    method := "POST"
    response_model :=
      if api.settings.enable_response_models then
        (if fields_ext.isNone then some ResponseModel.itemCollection else none)
      else none
    request_model := api.search_post_request_model
    endpoint := Handler.clientMethod "post_global_search" }

/-- `register_get_global_search` (app.py lines 234-256). -/
def register_get_global_search (api : StacApi) : RouteSpec :=
  let fields_ext := get_extension api.extensions ExtKind.fields
  { name := "Search"
    path := "/search"
    method := "GET"
    response_model :=
      if api.settings.enable_response_models then
        (if fields_ext.isNone then some ResponseModel.itemCollection else none)
      else none
    request_model := api.search_get_request_model
    endpoint := Handler.clientMethod "get_global_search" }

/-- `register_post_search` (app.py lines 260-282). -/
def register_post_search (api : StacApi) : RouteSpec :=
  let fields_ext := get_extension api.extensions ExtKind.fields
  { name := "Catalog Item Search"
    path := "/catalogs/{catalog_id}/search"
    method := "POST"
    response_model :=
      if api.settings.enable_response_models then
        (if fields_ext.isNone then some ResponseModel.itemCollection else none)
      else none
    request_model := api.search_catalog_post_request_model
    endpoint := Handler.clientMethod "post_search" }

/-- `register_get_search` (app.py lines 286-308). -/
def register_get_search (api : StacApi) : RouteSpec :=
  let fields_ext := get_extension api.extensions ExtKind.fields
  { name := "Catalog Item Search"
    path := "/catalogs/{catalog_id}/search"
    method := "GET"
    response_model :=
      if api.settings.enable_response_models then
        (if fields_ext.isNone then some ResponseModel.itemCollection else none)
      else none
    request_model := api.search_catalog_get_request_model
    endpoint := Handler.clientMethod "get_search" }

/-- `register_get_collections` (app.py lines 310-332). -/
def register_get_collections (api : StacApi) : RouteSpec :=
  let collection_search_ext := get_extension api.extensions ExtKind.collectionSearch
  { name := "Get Collections"
    path := "/collections"
    method := "GET"
    response_model :=
      if api.settings.enable_response_models then
        (if collection_search_ext.isNone then some ResponseModel.collections else none)
      else none
    request_model := api.collections_get_request_model
    endpoint := Handler.clientMethod "all_collections" }

/-- `register_get_catalogs` (app.py lines 334-349). -/
def register_get_catalogs (api : StacApi) : RouteSpec :=
  { name := "Get Catalogs"
    path := "/catalogs"
    method := "GET"
    response_model :=
      if api.settings.enable_response_models then some ResponseModel.catalogs else none
    request_model := EmptyRequest
    endpoint := Handler.clientMethod "all_catalogs" }

/-- `register_get_catalog_collections` (app.py lines 351-370). -/
def register_get_catalog_collections (api : StacApi) : RouteSpec :=
  { name := "Get CatalogCollections"
    path := "/catalogs/{catalog_id}/collections"
    method := "GET"
    response_model :=
      if api.settings.enable_response_models then some ResponseModel.collections else none
    request_model := CatalogUri
    endpoint := Handler.clientMethod "get_catalog_collections" }

/-- `register_get_collection` (app.py lines 372-389). -/
def register_get_collection (api : StacApi) : RouteSpec :=
  { name := "Get Collection"
    path := "/catalogs/{catalog_id}/collections/{collection_id}"
    method := "GET"
    response_model :=
      if api.settings.enable_response_models then some ResponseModel.collection else none
    request_model := CollectionUri
    endpoint := Handler.clientMethod "get_collection" }

/-- `register_get_catalog` (app.py lines 391-406). -/
def register_get_catalog (api : StacApi) : RouteSpec :=
  { name := "Get Catalog"
    path := "/catalogs/{catalog_id}"
    method := "GET"
    response_model :=
      if api.settings.enable_response_models then some ResponseModel.catalog else none
    request_model := CatalogUri
    endpoint := Handler.clientMethod "get_catalog" }

/-- `register_get_item_collection` (app.py lines 408-435): the request
model is synthesized from `ItemCollectionUri` plus the pagination
extension's `GET` mixin when a pagination extension is active, and from
`ItemCollectionUri` alone (`mixins=None`) otherwise. -/
def register_get_item_collection (api : StacApi) : Except String RouteSpec :=
  let pagination_ext := get_extension api.extensions api.pagination_extension
  let mixins : Option (List (List (String × String))) :=
    match pagination_ext with
    | some ext => some [ext.GET]
    | none => none
  match create_request_model "ItemCollectionURI" ItemCollectionUri mixins with
  | Except.error e => Except.error e
  | Except.ok request_model =>
    Except.ok
      { name := "Get ItemCollection"
        path := "/catalogs/{catalog_id}/collections/{collection_id}/items"
        method := "GET"
        response_model :=
          if api.settings.enable_response_models then some ResponseModel.itemCollection
          else none
        request_model := request_model
        endpoint := Handler.clientMethod "item_collection" }

/-- `register_core` (app.py lines 437-466): the thirteen core routes, in
the order the method bodies call `router.add_api_route`. -/
def register_core (api : StacApi) : Except String (List RouteSpec) :=
  match register_get_item_collection api with
  | Except.error e => Except.error e
  | Except.ok ric =>
    Except.ok (List.foldl add_api_route []
      [register_landing_page api, register_conformance_classes api, register_get_item api,
       register_post_global_search api, register_get_global_search api,
       register_post_search api, register_get_search api,
       register_get_collections api, register_get_catalogs api,
       register_get_collection api, register_get_catalog api,
       ric, register_get_catalog_collections api])

/-- `add_health_check` (app.py lines 484-493): the `/_mgmt/ping` route
whose handler always returns the fixed body `message: PONG` (the app's
router prefix is empty by default). -/
def ping_route : RouteSpec :=
  { name := "Ping"
    path := "/_mgmt/ping"
    method := "GET"
    response_model := none
    request_model := EmptyRequest
    endpoint := Handler.fixedResponse [("message", "PONG")] }

/-- A scope matches a route when path and method agree exactly. -/
def routeMatchesScope (r : RouteSpec) (s : Scope) : Bool :=
  r.path == s.path && r.method == s.method

/-- Modelled from the spec: `stac_fastapi.api.routes.add_route_dependencies`
(spec section 4.5) lives outside the provided sources.  For each route, if
any scope of the overlay matches it, the overlay's dependency list is
appended to that route's existing dependency chain; unmatched routes are
left untouched. -/
def add_route_dependencies (routes : List RouteSpec) (scopes : List Scope)
    (deps : List String) : List RouteSpec :=
  routes.map fun r =>
    if scopes.any (routeMatchesScope r) then
      { r with dependencies := r.dependencies ++ deps }
    else r

/-- The `for scopes, dependencies in self.route_dependencies` loop at the
end of `__attrs_post_init__` (app.py lines 559-560). -/
def applyOverlays (routes : List RouteSpec) :
    List (List Scope × List String) → List RouteSpec
  | [] => routes
  | ov :: ovs => applyOverlays (add_route_dependencies routes ov.1 ov.2) ovs

/-- The dependencies that the overlay list contributes to one route: for
each overlay in declaration order, its dependency list when one of its
scopes matches the route, nothing otherwise. -/
def overlayDepsFor (r : RouteSpec) : List (List Scope × List String) → List String
  | [] => []
  | ov :: ovs =>
    (if ov.1.any (routeMatchesScope r) then ov.2 else []) ++ overlayDepsFor r ovs

/-- The routes added by the extensions' `register` hooks, in
extension-declaration order (the `for ext in self.extensions` loop,
app.py lines 542-543). -/
def extensionRoutes : List Extension → List RouteSpec
  | [] => []
  | e :: rest => e.registers ++ extensionRoutes rest

/-- The application state produced by assembly: the final route table and
the mutated client and settings. -/
structure AppState where
  routes : List RouteSpec
  client : Client
  settings : ApiSettings
  deriving DecidableEq, Repr

/-- `__attrs_post_init__` (app.py lines 512-560): inject the client
attributes, overwrite `settings.default_includes` when a fields extension
is present, register the core routes, run the extension register hooks,
add the health check, and finally apply every route-dependency overlay. -/
def attrs_post_init (api : StacApi) (client : Client) : Except String AppState :=
  let client2 : Client :=
    { client with
      extensions := api.extensions
      stac_version := api.stac_version
      title := api.title
      description := api.description }
  let settings2 : ApiSettings :=
    match get_extension api.extensions ExtKind.fields with
    | some e => { api.settings with default_includes := some e.default_includes }
    | none => api.settings
  match register_core api with
  | Except.error e => Except.error e
  | Except.ok core =>
    let withExts := core ++ extensionRoutes api.extensions
    let withHealth := add_api_route withExts ping_route
    let final := applyOverlays withHealth api.route_dependencies
    Except.ok { routes := final, client := client2, settings := settings2 }

/-- Extracts the route list of a successful `register_core` run. -/
def extractRoutes (x : Except String (List RouteSpec)) : List RouteSpec :=
  match x with
  | Except.ok rs => rs
  | Except.error _ => []

/-- Extracts the route of a successful single registration. -/
def extractRoute (x : Except String RouteSpec) : RouteSpec :=
  match x with
  | Except.ok r => r
  | Except.error _ =>
    { name := ""
      path := ""
      method := ""
      response_model := none
      request_model := EmptyRequest
      endpoint := Handler.clientMethod "" }

/-- Extracts the state of a successful assembly. -/
def extractState (x : Except String AppState) : AppState :=
  match x with
  | Except.ok s => s
  | Except.error _ => { routes := [], client := {}, settings := {} }

/-- A fields extension instance used for concrete evaluations. -/
def wFieldsExt : Extension := { kind := ExtKind.fields, default_includes := ["id", "geometry"] }

/-- A token-pagination extension instance with a `GET` mixin. -/
def wPagExt : Extension := { kind := ExtKind.tokenPagination, GET := [("token", "str")] }

/-- A collection-search extension instance. -/
def wCsExt : Extension := { kind := ExtKind.collectionSearch }

/-- A sort extension instance (not an instance of the looked-up kinds). -/
def wSortExt : Extension := { kind := ExtKind.sort }

/-- A client with no attributes injected yet. -/
def wClient : Client := {}

/-- A StacApi with default settings and no extensions. -/
def defaultApi : StacApi := { settings := {} }

/-- A StacApi with response models enabled and no extensions. -/
def wEnabledApi : StacApi := { settings := { enable_response_models := true } }

/-- A StacApi with response models enabled and a fields extension. -/
def wFieldsApi : StacApi :=
  { settings := { enable_response_models := true }, extensions := [wFieldsExt] }

/-- A StacApi with default settings and a fields extension. -/
def wFieldsDisabledApi : StacApi := { settings := {}, extensions := [wFieldsExt] }

/-- A StacApi with default settings and a pagination extension. -/
def wPagApi : StacApi := { settings := {}, extensions := [wPagExt] }

/-- A StacApi with one route-dependency overlay targeting `POST /search`. -/
def wOverlayApi : StacApi :=
  { settings := {}
    route_dependencies := [([{ path := "/search", method := "POST" }], ["oauth2_scheme"])] }

/-- The core route table of the default assembly. -/
def coreRoutesDefault : List RouteSpec := extractRoutes (register_core defaultApi)

/-- The core route table of the assembly with a pagination extension. -/
def coreRoutesPag : List RouteSpec := extractRoutes (register_core wPagApi)

/-- The (name, path, method) triples of the thirteen core routes, as
registered by `register_core`, independent of settings and extensions. -/
def coreNamePathMethods : List (String × String × String) :=
  [("Landing Page", "/", "GET"),
   ("Conformance Classes", "/conformance", "GET"),
   ("Get Item", "/catalogs/{catalog_id}/collections/{collection_id}/items/{item_id}", "GET"),
   ("Search", "/search", "POST"),
   ("Search", "/search", "GET"),
   ("Catalog Item Search", "/catalogs/{catalog_id}/search", "POST"),
   ("Catalog Item Search", "/catalogs/{catalog_id}/search", "GET"),
   ("Get Collections", "/collections", "GET"),
   ("Get Catalogs", "/catalogs", "GET"),
   ("Get Collection", "/catalogs/{catalog_id}/collections/{collection_id}", "GET"),
   ("Get Catalog", "/catalogs/{catalog_id}", "GET"),
   ("Get ItemCollection", "/catalogs/{catalog_id}/collections/{collection_id}/items", "GET"),
   ("Get CatalogCollections", "/catalogs/{catalog_id}/collections", "GET")]

/-- The route table obtained by registering the landing-page route twice
through `add_api_route`. -/
def duplicateTable : List RouteSpec :=
  add_api_route (add_api_route [] (register_landing_page defaultApi))
    (register_landing_page defaultApi)

/-- Whether a route is one of the two item-level routes (single item and
item-collection listing). -/
def isItemLevelRoute (r : RouteSpec) : Bool :=
  r.path == "/catalogs/{catalog_id}/collections/{collection_id}/items/{item_id}" ||
  r.path == "/catalogs/{catalog_id}/collections/{collection_id}/items"

/-- Whether a route is one of the four search routes. -/
def isSearchRoute (r : RouteSpec) : Bool :=
  r.path == "/search" || r.path == "/catalogs/{catalog_id}/search"

/-- Whether no item-level route occurs after a search route in the table
(the ordering guarantee asserted by the specification). -/
def noItemLevelAfterSearch : List RouteSpec → Bool
  | [] => true
  | r :: rs =>
    (if isSearchRoute r then rs.all fun s => !(isItemLevelRoute s) else true) &&
    noItemLevelAfterSearch rs

/-- The item-collection route of the assembly with a pagination extension. -/
def wPagItemCollectionRoute : RouteSpec := extractRoute (register_get_item_collection wPagApi)

/-- The assembled state for the overlay-carrying configuration. -/
def wOverlayState : AppState := extractState (attrs_post_init wOverlayApi wClient)

/-- The assembled state for the default configuration. -/
def wDefaultState : AppState := extractState (attrs_post_init defaultApi wClient)

/-- The assembled state for the fields-extension configuration. -/
def wFieldsState : AppState := extractState (attrs_post_init wFieldsDisabledApi wClient)

/-- Folding `add_api_route` over a list of routes appends them in order. -/
theorem foldl_add_api_route (l acc : List RouteSpec) :
    List.foldl add_api_route acc l = acc ++ l := by
  induction l generalizing acc with
  | nil => simp
  | cons x xs ih => simp [List.foldl, add_api_route, ih]

/-- The lookup returns `none` exactly when no element of the list is an
instance of the requested kind. -/
theorem get_extension_eq_none_iff (exts : List Extension) (t : ExtKind) :
    get_extension exts t = none ↔ ∀ e ∈ exts, instOf t e = false := by
  induction exts with
  | nil => simp [get_extension]
  | cons x xs ih =>
    by_cases h : instOf t x
    · simp [get_extension, h]
    · simp only [Bool.not_eq_true] at h
      simp [get_extension, h, ih]

/-- A successful lookup returns an instance of the requested kind. -/
theorem get_extension_instOf {exts : List Extension} {t : ExtKind} {e : Extension}
    (h : get_extension exts t = some e) : instOf t e = true := by
  induction exts with
  | nil => simp [get_extension] at h
  | cons x xs ih =>
    by_cases hx : instOf t x
    · simp [get_extension, hx] at h
      subst h; exact hx
    · simp only [Bool.not_eq_true] at hx
      simp [get_extension, hx] at h
      exact ih h

/-- A successful lookup returns the first matching element: everything
before it in the list fails the instance check. -/
theorem get_extension_first {exts : List Extension} {t : ExtKind} {e : Extension}
    (h : get_extension exts t = some e) :
    ∃ l1 l2, exts = l1 ++ e :: l2 ∧ ∀ x ∈ l1, instOf t x = false := by
  induction exts with
  | nil => simp [get_extension] at h
  | cons x xs ih =>
    by_cases hx : instOf t x
    · simp [get_extension, hx] at h
      subst h
      exact ⟨[], xs, rfl, by simp⟩
    · simp only [Bool.not_eq_true] at hx
      simp only [get_extension, hx, if_neg] at h
      obtain ⟨l1, l2, hl, hall⟩ := ih (by simpa [hx] using h)
      refine ⟨x :: l1, l2, by simp [hl], ?_⟩
      intro y hy
      rcases List.mem_cons.mp hy with rfl | hy2
      · exact hx
      · exact hall y hy2

/-- When some member of the list is an instance of the kind, the lookup
does not return `none`. -/
theorem get_extension_isNone_eq_false {exts : List Extension} {t : ExtKind}
    {e : Extension} (hm : e ∈ exts) (hi : instOf t e = true) :
    (get_extension exts t).isNone = false := by
  rw [Option.isNone_eq_false_iff, Option.isSome_iff_ne_none]
  intro hn
  have h2 := (get_extension_eq_none_iff exts t).mp hn e hm
  rw [hi] at h2
  simp at h2

/-- `register_core` succeeds exactly when the item-collection registration
does, producing the thirteen core routes in call order. -/
theorem register_core_ok_iff (api : StacApi) (rs : List RouteSpec) :
    register_core api = Except.ok rs ↔
      ∃ ric, register_get_item_collection api = Except.ok ric ∧
        rs = [register_landing_page api, register_conformance_classes api,
              register_get_item api, register_post_global_search api,
              register_get_global_search api, register_post_search api,
              register_get_search api, register_get_collections api,
              register_get_catalogs api, register_get_collection api,
              register_get_catalog api, ric, register_get_catalog_collections api] := by
  unfold register_core
  cases h : register_get_item_collection api with
  | error e => simp [h]
  | ok ric => simp [h, add_api_route, eq_comm]

/-- The fixed fields of a successfully registered item-collection route. -/
theorem register_get_item_collection_shape (api : StacApi) (r : RouteSpec)
    (h : register_get_item_collection api = Except.ok r) :
    r.name = "Get ItemCollection" ∧
    r.path = "/catalogs/{catalog_id}/collections/{collection_id}/items" ∧
    r.method = "GET" ∧
    r.response_model =
      (if api.settings.enable_response_models then some ResponseModel.itemCollection
       else none) ∧
    r.endpoint = Handler.clientMethod "item_collection" := by
  simp only [register_get_item_collection] at h
  split at h
  · exact absurd h (by simp)
  · cases h
    exact ⟨rfl, rfl, rfl, rfl, rfl⟩

/-- Overlay matching only looks at path and method, so changing a route's
dependency chain does not change which overlays match it. -/
theorem overlayDepsFor_set_deps (r : RouteSpec) (d : List String)
    (ovs : List (List Scope × List String)) :
    overlayDepsFor { r with dependencies := d } ovs = overlayDepsFor r ovs := by
  induction ovs with
  | nil => rfl
  | cons ov ovs ih => simp [overlayDepsFor, routeMatchesScope, ih]

/-- Running the overlay loop leaves every route in place and appends to
each route exactly the dependencies its matching overlays contribute, in
overlay-declaration order. -/
theorem applyOverlays_eq (rs : List RouteSpec) (ovs : List (List Scope × List String)) :
    applyOverlays rs ovs =
      rs.map fun r => { r with dependencies := r.dependencies ++ overlayDepsFor r ovs } := by
  induction ovs generalizing rs with
  | nil => simp [applyOverlays, overlayDepsFor]
  | cons ov ovs ih =>
    rw [applyOverlays, ih, add_route_dependencies, List.map_map]
    congr 1
    funext r
    by_cases h : ov.1.any (routeMatchesScope r)
    · simp [Function.comp, h, overlayDepsFor, overlayDepsFor_set_deps]
    · simp only [Bool.not_eq_true] at h
      simp [Function.comp, h, overlayDepsFor, overlayDepsFor_set_deps]

/-- Decomposition of a successful assembly: the produced state is the
overlay-processed concatenation of core routes, extension routes and the
health check, together with the mutated client and settings. -/
theorem attrs_post_init_ok_iff (api : StacApi) (client : Client) (s : AppState) :
    attrs_post_init api client = Except.ok s ↔
      ∃ core, register_core api = Except.ok core ∧
        s = { routes := applyOverlays (core ++ extensionRoutes api.extensions ++ [ping_route])
                api.route_dependencies
              client :=
                { client with
                  extensions := api.extensions
                  stac_version := api.stac_version
                  title := api.title
                  description := api.description }
              settings :=
                match get_extension api.extensions ExtKind.fields with
                | some e => { api.settings with default_includes := some e.default_includes }
                | none => api.settings } := by
  unfold attrs_post_init
  cases h : register_core api with
  | error e => simp [h]
  | ok core => simp [h, add_api_route, List.append_assoc, eq_comm]

/-- The (name, path, method) triples of the core route table do not depend
on settings or extensions. -/
theorem register_core_name_path_methods (api : StacApi) (rs : List RouteSpec)
    (h : register_core api = Except.ok rs) :
    (rs.map fun r => (r.name, r.path, r.method)) = coreNamePathMethods := by
  obtain ⟨ric, hric, hrs⟩ := (register_core_ok_iff api rs).mp h
  obtain ⟨hn, hp, hm, -, -⟩ := register_get_item_collection_shape api ric hric
  subst hrs
  simp [register_landing_page, register_conformance_classes, register_get_item,
        register_post_global_search, register_get_global_search, register_post_search,
        register_get_search, register_get_collections, register_get_catalogs,
        register_get_collection, register_get_catalog, register_get_catalog_collections,
        hn, hp, hm, coreNamePathMethods]

/-- With response models disabled, every core route is registered with
response model `None`. -/
theorem register_core_response_models_disabled (api : StacApi) (rs : List RouteSpec)
    (he : api.settings.enable_response_models = false)
    (h : register_core api = Except.ok rs) :
    (rs.map fun r => r.response_model) = List.replicate 13 none := by
  obtain ⟨ric, hric, hrs⟩ := (register_core_ok_iff api rs).mp h
  obtain ⟨-, -, -, hresp, -⟩ := register_get_item_collection_shape api ric hric
  subst hrs
  simp [register_landing_page, register_conformance_classes, register_get_item,
        register_post_global_search, register_get_global_search, register_post_search,
        register_get_search, register_get_collections, register_get_catalogs,
        register_get_collection, register_get_catalog, register_get_catalog_collections,
        he, hresp, List.replicate]

/-- C1 counterexample: registering two routes with the same (path, method)
pair does not fail — `add_api_route` appends without a duplicate check and
no route-conflict error exists anywhere in the code — so the table obtained
by registering the landing-page route twice has two entries and a duplicate
(path, method) pair. -/
theorem duplicate_route_registration_not_rejected :
    duplicateTable.length = 2 ∧
    ¬ (duplicateTable.map fun r => (r.path, r.method)).Nodup := ⟨rfl, by decide⟩

/-- C1 (amended): duplicate registration is not rejected, but the core
route table produced by `register_core` does have pairwise-distinct
(path, method) pairs. -/
theorem register_core_path_method_pairs_nodup (api : StacApi) (rs : List RouteSpec)
    (h : register_core api = Except.ok rs) :
    (rs.map fun r => (r.path, r.method)).Nodup := by
  have hshape := register_core_name_path_methods api rs h
  have h2 : (rs.map fun r => (r.path, r.method)) =
      (coreNamePathMethods.map fun x => (x.2.1, x.2.2)) := by
    rw [← hshape, List.map_map]
    rfl
  rw [h2]
  decide

/-- C1 witness: the default assembly's core table has distinct
(path, method) pairs. -/
theorem register_core_path_method_pairs_nodup_witness :
    (coreRoutesDefault.map fun r => (r.path, r.method)).Nodup :=
  register_core_path_method_pairs_nodup defaultApi coreRoutesDefault rfl

/-- C2 counterexample: with the default settings (response models
disabled) and no collection-search extension, the `GET /collections` route
is registered with no response model, not with the Collections schema. -/
theorem collections_response_model_needs_enable_flag :
    ¬ (register_get_collections defaultApi).response_model =
      some ResponseModel.collections := by
  decide

/-- C2 (amended): when `settings.enable_response_models` is true, the
`GET /collections` route declares the fixed Collections schema when no
collection-search extension is in the extensions list and no response
model when one is; when the setting is false the response model is always
`None`. -/
theorem collections_response_model_dichotomy (api : StacApi)
    (hen : api.settings.enable_response_models = true) :
    ((∀ e ∈ api.extensions, instOf ExtKind.collectionSearch e = false) →
      (register_get_collections api).response_model = some ResponseModel.collections) ∧
    (∀ e ∈ api.extensions, instOf ExtKind.collectionSearch e = true →
      (register_get_collections api).response_model = none) := by
  constructor
  · intro hall
    have hn : get_extension api.extensions ExtKind.collectionSearch = none :=
      (get_extension_eq_none_iff _ _).mpr hall
    simp [register_get_collections, hen, hn]
  · intro e hm hi
    have hf := get_extension_isNone_eq_false hm hi
    simp [register_get_collections, hen, hf]

/-- C2 witness: with response models enabled and no extensions the route
declares the Collections schema. -/
theorem collections_response_model_dichotomy_witness :
    (register_get_collections wEnabledApi).response_model =
      some ResponseModel.collections :=
  (collections_response_model_dichotomy wEnabledApi rfl).1 (by decide)

/-- C3 counterexample: with the default settings (response models
disabled) and no fields extension, `GET /search` is registered with no
response model, not with the ItemCollection schema. -/
theorem search_response_model_needs_enable_flag :
    ¬ (register_get_global_search defaultApi).response_model =
      some ResponseModel.itemCollection := by
  decide

/-- C3 (amended): when a fields extension is in the extensions list each
of the four search routes is registered with no static response schema,
regardless of settings; when no fields extension is present and
`settings.enable_response_models` is true, each of the four search routes
declares the fixed ItemCollection schema. -/
theorem search_response_model_fields_suppression (api : StacApi) :
    (∀ e ∈ api.extensions, instOf ExtKind.fields e = true →
      (register_get_global_search api).response_model = none ∧
      (register_post_global_search api).response_model = none ∧
      (register_get_search api).response_model = none ∧
      (register_post_search api).response_model = none) ∧
    (api.settings.enable_response_models = true →
      (∀ e ∈ api.extensions, instOf ExtKind.fields e = false) →
      (register_get_global_search api).response_model = some ResponseModel.itemCollection ∧
      (register_post_global_search api).response_model = some ResponseModel.itemCollection ∧
      (register_get_search api).response_model = some ResponseModel.itemCollection ∧
      (register_post_search api).response_model = some ResponseModel.itemCollection) := by
  constructor
  · intro e hm hi
    have hf := get_extension_isNone_eq_false hm hi
    refine ⟨?_, ?_, ?_, ?_⟩ <;>
      simp [register_get_global_search, register_post_global_search,
            register_get_search, register_post_search, hf]
  · intro hen hall
    have hn : get_extension api.extensions ExtKind.fields = none :=
      (get_extension_eq_none_iff _ _).mpr hall
    refine ⟨?_, ?_, ?_, ?_⟩ <;>
      simp [register_get_global_search, register_post_global_search,
            register_get_search, register_post_search, hen, hn]

/-- C3 witness: with a fields extension active all four search routes have
no static response schema. -/
theorem search_response_model_fields_suppression_witness :
    (register_get_global_search wFieldsApi).response_model = none ∧
    (register_post_global_search wFieldsApi).response_model = none ∧
    (register_get_search wFieldsApi).response_model = none ∧
    (register_post_search wFieldsApi).response_model = none :=
  (search_response_model_fields_suppression wFieldsApi).1 wFieldsExt (by decide) rfl

/-- C4: `get_extension` returns `None` exactly when no element of the
extensions list is an instance of the requested type, and a successful
lookup returns the first element that is an instance of it (so every
registration method obtains at most one instance of a given type). -/
theorem get_extension_returns_first_instance (exts : List Extension) (t : ExtKind) :
    (get_extension exts t = none ↔ ∀ e ∈ exts, instOf t e = false) ∧
    (∀ e, get_extension exts t = some e →
      instOf t e = true ∧ ∃ l1 l2, exts = l1 ++ e :: l2 ∧ ∀ x ∈ l1, instOf t x = false) :=
  ⟨get_extension_eq_none_iff exts t,
   fun _ h => ⟨get_extension_instOf h, get_extension_first h⟩⟩

/-- C4 witness: looking up the pagination kind in a two-element list
returns the (unique) pagination instance, preceded only by non-instances. -/
theorem get_extension_returns_first_instance_witness :
    instOf ExtKind.tokenPagination wPagExt = true ∧
    ∃ l1 l2, [wSortExt, wPagExt] = l1 ++ wPagExt :: l2 ∧
      ∀ x ∈ l1, instOf ExtKind.tokenPagination x = false :=
  (get_extension_returns_first_instance [wSortExt, wPagExt] ExtKind.tokenPagination).2
    wPagExt rfl

/-- C5: when a pagination extension (of the configured
`pagination_extension` kind) is active, the item-collection route's request
model is synthesized from the `ItemCollectionUri` base plus that
extension's `GET` mixin; when none is active the route uses the fixed
minimal request model, `ItemCollectionUri` with no mixins. -/
theorem item_collection_request_model_synthesis (api : StacApi) :
    (∀ e r, get_extension api.extensions api.pagination_extension = some e →
      register_get_item_collection api = Except.ok r →
      create_request_model "ItemCollectionURI" ItemCollectionUri (some [e.GET]) =
        Except.ok r.request_model) ∧
    (∀ r, get_extension api.extensions api.pagination_extension = none →
      register_get_item_collection api = Except.ok r →
      r.request_model = { name := "ItemCollectionURI", fields := ItemCollectionUri.fields }) := by
  constructor
  · intro e r hge h
    simp only [register_get_item_collection, hge] at h
    split at h
    · exact absurd h (by simp)
    · rename_i rm heq
      cases h
      exact heq
  · intro r hge h
    simp only [register_get_item_collection, hge, create_request_model] at h
    cases h
    rfl

/-- C5 witness: with a token-pagination extension active, the registered
request model is the synthesis of the base model and the extension's `GET`
mixin. -/
theorem item_collection_request_model_synthesis_witness :
    create_request_model "ItemCollectionURI" ItemCollectionUri (some [wPagExt.GET]) =
      Except.ok wPagItemCollectionRoute.request_model :=
  (item_collection_request_model_synthesis wPagApi).1 wPagExt wPagItemCollectionRoute rfl rfl

/-- C6 counterexample: in the default assembled core table an item-level
route (the item-collection listing) occurs after the search routes, so the
documented order "landing, conformance, all item-level routes, search
routes, collection/catalog listing routes" does not hold. -/
theorem register_core_item_level_route_after_search :
    register_core defaultApi = Except.ok coreRoutesDefault ∧
    noItemLevelAfterSearch coreRoutesDefault = false := ⟨rfl, by decide⟩

/-- C6 (amended): `register_core` registers the routes in the fixed order
landing page, conformance, get-item, the four search routes (global
POST/GET then per-catalog POST/GET), get-collections, get-catalogs,
get-collection, get-catalog, get-item-collection, get-catalog-collections;
the item-collection route comes after the search and listing routes. -/
theorem register_core_registration_order (api : StacApi) (rs : List RouteSpec)
    (h : register_core api = Except.ok rs) :
    (rs.map fun r => (r.name, r.path, r.method)) = coreNamePathMethods :=
  register_core_name_path_methods api rs h

/-- C6 witness: the default assembly's core table has exactly the
documented (name, path, method) sequence. -/
theorem register_core_registration_order_witness :
    (coreRoutesDefault.map fun r => (r.name, r.path, r.method)) = coreNamePathMethods :=
  register_core_registration_order defaultApi coreRoutesDefault rfl

/-- C7: in every successful assembly the final route table is the core
routes, then the extension-registered routes, then the health-check route,
with each route's dependency chain extended — never replaced — by exactly
the dependencies of the overlays whose scopes match it, in
overlay-declaration order; overlays change nothing else, so they run once,
after the whole table exists. -/
theorem route_dependency_overlays_applied_once_after_freeze (api : StacApi)
    (client : Client) (s : AppState)
    (h : attrs_post_init api client = Except.ok s) :
    ∃ core, register_core api = Except.ok core ∧
      s.routes = (core ++ extensionRoutes api.extensions ++ [ping_route]).map
        fun r => { r with dependencies :=
          r.dependencies ++ overlayDepsFor r api.route_dependencies } := by
  obtain ⟨core, hc, hs⟩ := (attrs_post_init_ok_iff api client s).mp h
  subst hs
  exact ⟨core, hc, by simp [applyOverlays_eq]⟩

/-- C7 witness: the overlay-carrying configuration assembles and its route
table is the frozen table with the overlay dependencies appended. -/
theorem route_dependency_overlays_applied_once_after_freeze_witness :
    ∃ core, register_core wOverlayApi = Except.ok core ∧
      wOverlayState.routes =
        (core ++ extensionRoutes wOverlayApi.extensions ++ [ping_route]).map
          fun r => { r with dependencies :=
            r.dependencies ++ overlayDepsFor r wOverlayApi.route_dependencies } :=
  route_dependency_overlays_applied_once_after_freeze wOverlayApi wClient wOverlayState rfl

/-- C8: every successful assembly, whatever its settings, extensions and
overlays, contains a `GET /_mgmt/ping` route whose handler is the fixed
response `message: PONG` (overlays may add dependencies but never change
the handler). -/
theorem ping_route_fixed_response (api : StacApi) (client : Client) (s : AppState)
    (h : attrs_post_init api client = Except.ok s) :
    ∃ r ∈ s.routes, r.path = "/_mgmt/ping" ∧ r.method = "GET" ∧
      r.endpoint = Handler.fixedResponse [("message", "PONG")] := by
  obtain ⟨core, hc, hs⟩ := (attrs_post_init_ok_iff api client s).mp h
  subst hs
  simp only [applyOverlays_eq]
  refine ⟨{ ping_route with dependencies :=
      ping_route.dependencies ++ overlayDepsFor ping_route api.route_dependencies },
    List.mem_map_of_mem _ (by simp), rfl, rfl, rfl⟩

/-- C8 witness: the default assembly contains the fixed ping route. -/
theorem ping_route_fixed_response_witness :
    ∃ r ∈ wDefaultState.routes, r.path = "/_mgmt/ping" ∧ r.method = "GET" ∧
      r.endpoint = Handler.fixedResponse [("message", "PONG")] :=
  ping_route_fixed_response defaultApi wClient wDefaultState rfl

/-- C9: when `enable_response_models` is false every core route has
response model `None`, and two assemblies with that setting — in
particular, two differing only in their extensions list — declare
identical response models for all core routes. -/
theorem core_response_models_none_when_disabled (api1 api2 : StacApi)
    (rs1 rs2 : List RouteSpec)
    (h1e : api1.settings.enable_response_models = false)
    (h2e : api2.settings.enable_response_models = false)
    (h1 : register_core api1 = Except.ok rs1)
    (h2 : register_core api2 = Except.ok rs2) :
    (∀ r ∈ rs1, r.response_model = none) ∧
    (rs1.map fun r => r.response_model) = (rs2.map fun r => r.response_model) := by
  have e1 := register_core_response_models_disabled api1 rs1 h1e h1
  have e2 := register_core_response_models_disabled api2 rs2 h2e h2
  constructor
  · intro r hr
    have hmem : r.response_model ∈ (rs1.map fun r => r.response_model) :=
      List.mem_map_of_mem _ hr
    rw [e1] at hmem
    exact List.eq_of_mem_replicate hmem
  · rw [e1, e2]

/-- C9 witness: the default assembly and the pagination-extension assembly
(same settings, different extensions) have all-`None` and identical
response models. -/
theorem core_response_models_none_when_disabled_witness :
    (∀ r ∈ coreRoutesDefault, r.response_model = none) ∧
    (coreRoutesDefault.map fun r => r.response_model) =
      (coreRoutesPag.map fun r => r.response_model) :=
  core_response_models_none_when_disabled defaultApi wPagApi coreRoutesDefault
    coreRoutesPag rfl rfl rfl rfl

/-- C10: assembly sets the client's `extensions`, `stac_version`, `title`
and `description` to the StacApi's values, and overwrites
`settings.default_includes` with the fields extension's `default_includes`
exactly when a fields extension is in the extensions list — the settings
are left unchanged otherwise, and the other settings fields are never
touched. -/
theorem post_init_client_and_settings_mutation (api : StacApi) (client : Client)
    (s : AppState) (h : attrs_post_init api client = Except.ok s) :
    s.client.extensions = api.extensions ∧
    s.client.stac_version = api.stac_version ∧
    s.client.title = api.title ∧
    s.client.description = api.description ∧
    ((∀ e ∈ api.extensions, instOf ExtKind.fields e = false) → s.settings = api.settings) ∧
    (∀ e, get_extension api.extensions ExtKind.fields = some e →
      s.settings.default_includes = some e.default_includes ∧
      s.settings.enable_response_models = api.settings.enable_response_models) := by
  obtain ⟨core, hc, hs⟩ := (attrs_post_init_ok_iff api client s).mp h
  subst hs
  refine ⟨rfl, rfl, rfl, rfl, ?_, ?_⟩
  · intro hall
    have hn : get_extension api.extensions ExtKind.fields = none :=
      (get_extension_eq_none_iff _ _).mpr hall
    simp [hn]
  · intro e he
    simp [he]

/-- C10 witness: assembling with a fields extension injects the client
attributes and overwrites `default_includes` with the extension's value. -/
theorem post_init_client_and_settings_mutation_witness :
    wFieldsState.client.extensions = wFieldsDisabledApi.extensions ∧
    wFieldsState.client.stac_version = wFieldsDisabledApi.stac_version ∧
    wFieldsState.client.title = wFieldsDisabledApi.title ∧
    wFieldsState.client.description = wFieldsDisabledApi.description ∧
    ((∀ e ∈ wFieldsDisabledApi.extensions, instOf ExtKind.fields e = false) →
      wFieldsState.settings = wFieldsDisabledApi.settings) ∧
    (∀ e, get_extension wFieldsDisabledApi.extensions ExtKind.fields = some e →
      wFieldsState.settings.default_includes = some e.default_includes ∧
      wFieldsState.settings.enable_response_models =
        wFieldsDisabledApi.settings.enable_response_models) :=
  post_init_client_and_settings_mutation wFieldsDisabledApi wClient wFieldsState rfl

end StacFastApi
